import Mathlib

/-!
Verification development for the aleph.js swc transform module
(src/swc/src/lib.rs).  The file shallowly embeds the option
deserialization, the transform pipeline orchestration of
transform_sync, and — where the corresponding repository modules
(import_map.rs, resolve.rs, swc.rs, fast_refresh.rs) are not available
under src/ — models of those components taken from the specification.
-/

set_option autoImplicit false

namespace AlephSwc

/-- A value-level model of the JSON-like payload crossing the wasm
boundary.  Objects are association lists so that duplicate keys are
representable (serde sees the fields of the input in order). -/
inductive Json where
  | null : Json
  | bool (b : Bool) : Json
  | num (n : Int) : Json
  | str (s : String) : Json
  | arr (elems : List Json) : Json
  | obj (fields : List (String × Json)) : Json
  deriving Repr

/-- Language-level target enum from the external swc crate
(swc_ecmascript::parser::JscTarget), modelled with its lowercase serde
names.  Only the set of variants and the default matter here. -/
inductive JscTarget where
  | es3 | es5 | es2015 | es2016 | es2017 | es2018 | es2019 | es2020
  deriving Repr, DecidableEq

/-- Modelled from the spec: the raw import-map payload (ImportHashMap
in import_map.rs, which is not under src/).  Section 6 of the spec gives
the shape: an imports object and a scopes object, both optional and
defaulting to empty.  Entry sets are kept as association lists so that
duplicate keys stay observable, which section 4.1 requires map
construction to reject. -/
structure ImportHashMap where
  imports : List (String × String) := []
  scopes : List (String × List (String × String)) := []
  deriving Repr, DecidableEq

/-- The SWCOptions struct of lib.rs lines 36-50: serde Deserialize with
deny_unknown_fields and camelCase renaming. -/
structure SWCOptions where
  target : JscTarget
  jsx_factory : String
  jsx_fragment_factory : String
  is_dev : Bool
  deriving Repr, DecidableEq

/-- default_target of lib.rs lines 63-65. -/
def default_target : JscTarget := .es2020

/-- default_pragma of lib.rs lines 67-69. -/
def default_pragma : String := "React.createElement"

/-- default_pragma_frag of lib.rs lines 71-73. -/
def default_pragma_frag : String := "React.Fragment"

/-- The Default impl for SWCOptions of lib.rs lines 52-61.  Note that it
sets is_dev to true, while the serde field attribute on is_dev (a plain
serde default on a bool) yields false when the field is absent but the
surrounding swcOptions object is present. -/
def SWCOptions.default : SWCOptions :=
  { target := default_target
    jsx_factory := default_pragma
    jsx_fragment_factory := default_pragma_frag
    is_dev := true }

/-- The Options struct of lib.rs lines 24-34: serde Deserialize with
deny_unknown_fields and camelCase renaming; import_map and swc_options
carry serde field defaults. -/
structure Options where
  filename : String
  import_map : ImportHashMap
  swc_options : SWCOptions
  deriving Repr, DecidableEq

/-- The camelCase field names serde accepts for Options. -/
def optionFields : List String := ["filename", "importMap", "swcOptions"]

/-- The camelCase field names serde accepts for SWCOptions. -/
def swcOptionFields : List String := ["target", "jsxFactory", "jsxFragmentFactory", "isDev"]

/-- The field-name discipline of a serde-derived struct deserializer
with deny_unknown_fields: walking the input fields in order, a name
outside the declared schema is an immediate error, and a repeated name
is a duplicate-field error. -/
def scanFields (allowed : List String) : List String → List String → Except String Unit
  | _, [] => .ok ()
  | seen, k :: rest =>
    if k ∈ allowed then
      if k ∈ seen then .error ("duplicate field " ++ k)
      else scanFields allowed (k :: seen) rest
    else .error ("unknown field " ++ k)

/-- Decode a JSON value that must be a string. -/
def asString : Json → Except String String
  | .str s => .ok s
  | _ => .error "invalid type: expected a string"

/-- Decode a JSON value that must be a boolean. -/
def asBool : Json → Except String Bool
  | .bool b => .ok b
  | _ => .error "invalid type: expected a boolean"

/-- Serde deserialization of JscTarget from its lowercase name. -/
def deserializeJscTarget : Json → Except String JscTarget
  | .str "es3" => .ok .es3
  | .str "es5" => .ok .es5
  | .str "es2015" => .ok .es2015
  | .str "es2016" => .ok .es2016
  | .str "es2017" => .ok .es2017
  | .str "es2018" => .ok .es2018
  | .str "es2019" => .ok .es2019
  | .str "es2020" => .ok .es2020
  | _ => .error "invalid value for target"

/-- A serde field with a default: absent means the default, present
means the value must decode. -/
def optField {α : Type} (fields : List (String × Json)) (name : String)
    (decode : Json → Except String α) (dflt : α) : Except String α :=
  match fields.lookup name with
  | none => .ok dflt
  | some v => decode v

/-- Decode an object whose values are all strings into an association
list, keeping the keys in input order (duplicates included). -/
def decodeStringMap : List (String × Json) → Except String (List (String × String))
  | [] => .ok []
  | (k, v) :: rest =>
    match asString v with
    | .error e => .error e
    | .ok s =>
      match decodeStringMap rest with
      | .error e => .error e
      | .ok tl => .ok ((k, s) :: tl)

/-- Decode the scopes object: each value is itself a string map. -/
def decodeScopes : List (String × Json) → Except String (List (String × List (String × String)))
  | [] => .ok []
  | (k, v) :: rest =>
    match v with
    | .obj inner =>
      match decodeStringMap inner with
      | .error e => .error e
      | .ok m =>
        match decodeScopes rest with
        | .error e => .error e
        | .ok tl => .ok ((k, m) :: tl)
    | _ => .error "invalid type: expected a map"

/-- Modelled from the spec: deserialization of the import-map payload
(ImportHashMap in import_map.rs, not under src/), following the request
schema of section 6 — an object holding an optional imports object and
an optional scopes object, strict about anything else. -/
def deserializeImportHashMap : Json → Except String ImportHashMap
  | .obj fields =>
    match scanFields ["imports", "scopes"] [] (fields.map Prod.fst) with
    | .error e => .error e
    | .ok _ =>
      match optField fields "imports"
          (fun j => match j with
            | .obj kvs => decodeStringMap kvs
            | _ => .error "invalid type: expected a map") [] with
      | .error e => .error e
      | .ok imports =>
        match optField fields "scopes"
            (fun j => match j with
              | .obj kvs => decodeScopes kvs
              | _ => .error "invalid type: expected a map") [] with
        | .error e => .error e
        | .ok scopes => .ok { imports := imports, scopes := scopes }
  | _ => .error "invalid type: expected a map"

/-- Serde deserialization of SWCOptions (lib.rs lines 36-50):
deny_unknown_fields; target, jsxFactory and jsxFragmentFactory default
through the named default functions, while isDev carries a plain serde
default, which for a bool is false. -/
def deserializeSWCOptions : Json → Except String SWCOptions
  | .obj fields =>
    match scanFields swcOptionFields [] (fields.map Prod.fst) with
    | .error e => .error e
    | .ok _ =>
      match optField fields "target" deserializeJscTarget default_target with
      | .error e => .error e
      | .ok target =>
        match optField fields "jsxFactory" asString default_pragma with
        | .error e => .error e
        | .ok fac =>
          match optField fields "jsxFragmentFactory" asString default_pragma_frag with
          | .error e => .error e
          | .ok frag =>
            match optField fields "isDev" asBool false with
            | .error e => .error e
            | .ok dev =>
              .ok { target := target, jsx_factory := fac
                    jsx_fragment_factory := frag, is_dev := dev }
  | _ => .error "invalid type: expected a map"

/-- Serde deserialization of Options (lib.rs lines 24-34):
deny_unknown_fields; filename is required, importMap defaults to the
empty payload and swcOptions to SWCOptions.default.  This is what
opts.into_serde performs at lib.rs lines 86-88. -/
def deserializeOptions : Json → Except String Options
  | .obj fields =>
    match scanFields optionFields [] (fields.map Prod.fst) with
    | .error e => .error e
    | .ok _ =>
      match fields.lookup "filename" with
      | none => .error "missing field filename"
      | some fv =>
        match asString fv with
        | .error e => .error e
        | .ok filename =>
          match optField fields "importMap" deserializeImportHashMap {} with
          | .error e => .error e
          | .ok im =>
            match optField fields "swcOptions" deserializeSWCOptions SWCOptions.default with
            | .error e => .error e
            | .ok so => .ok { filename := filename, import_map := im, swc_options := so }
  | _ => .error "invalid type: expected a map"

/-! ### Import map (modelled: import_map.rs is not under src/) -/

/-- Modelled from the spec: the constructed, immutable import map
(section 3, ImportMap owns scopes plus one top-level entry set). -/
structure ImportMap where
  imports : List (String × String)
  scopes : List (String × List (String × String))
  deriving Repr, DecidableEq

/-- Does the key end in a slash?  Stated over the character list of the
string so that it computes by structural recursion. -/
def endsWithSlash (key : String) : Bool :=
  match key.data.getLast? with
  | some c => c == '/'
  | none => false

/-- Modelled from the spec (section 4.1 step 2): a key matches a
specifier when it is an exact match, or when it ends in a slash and is a
prefix of the specifier. -/
def matchKey (key spec : String) : Bool :=
  key == spec || (endsWithSlash key && key.data.isPrefixOf spec.data)

/-- One step of the longest-match selection: keep the better of the
candidate found so far and the next entry. -/
def matchStep (spec : String) (acc : Option (String × String))
    (e : String × String) : Option (String × String) :=
  if matchKey e.1 spec then
    match acc with
    | none => some e
    | some b => if b.1.length < e.1.length then some e else acc
  else acc

/-- Modelled from the spec (section 4.1 step 2): within one entry set,
the matching key of greatest length is selected. -/
def bestMatch (entries : List (String × String)) (spec : String) :
    Option (String × String) :=
  entries.foldl (matchStep spec) none

/-- Does a key list contain a repeated key? -/
def hasDup : List String → Bool
  | [] => false
  | k :: rest => rest.contains k || hasDup rest

/-- Modelled from the spec: ImportMap::from_hashmap (import_map.rs, not
under src/).  Section 4.1 failure clause: malformed entries — duplicate
keys anywhere, an empty top-level key — are rejected at map-construction
time with a descriptive error.  lib.rs line 93 invokes construction
while building the Resolver, after the module has been parsed. -/
def ImportMap.from_hashmap (h : ImportHashMap) : Except String ImportMap :=
  if hasDup (h.imports.map Prod.fst) then .error "duplicate import map key"
  else if h.imports.any (fun e => e.1 == "") then .error "empty import map key"
  else if hasDup (h.scopes.map Prod.fst) then .error "duplicate import map scope"
  else if h.scopes.any (fun sc => hasDup (sc.2.map Prod.fst)) then
    .error "duplicate key in import map scope"
  else .ok { imports := h.imports, scopes := h.scopes }

/-- Modelled from the spec (section 4.1 step 1): the scope whose prefix
is the longest prefix of the referrer path is selected. -/
def selectScope (scopes : List (String × List (String × String)))
    (referrer : String) : Option (String × List (String × String)) :=
  scopes.foldl
    (fun acc sc =>
      if sc.1.data.isPrefixOf referrer.data then
        match acc with
        | none => some sc
        | some b => if b.1.length < sc.1.length then some sc else acc
      else acc)
    none

/-- Modelled from the spec (section 4.1): resolution tries the selected
scope entry set first, falls back to the top-level entries, and on a
match replaces the key prefix by the target value; no match is a valid
outcome, never an error. -/
def ImportMap.resolve (m : ImportMap) (spec referrer : String) : Option String :=
  let fromEntries := fun (entries : List (String × String)) =>
    match bestMatch entries spec with
    | none => none
    | some (k, v) => some (v ++ spec.drop k.length)
  match selectScope m.scopes referrer with
  | some sc =>
    match fromEntries sc.2 with
    | some t => some t
    | none => fromEntries m.imports
  | none => fromEntries m.imports

/-! ### Resolver (modelled: resolve.rs is not under src/; the
construction arguments are visible at lib.rs lines 91-96) -/

/-- Modelled from the spec (section 3): one dependency record —
specifier as written, resolved target, dynamic-import flag. -/
structure DependencyDescriptor where
  specifier : String
  resolved : String
  is_dynamic : Bool
  deriving Repr, DecidableEq

/-- Modelled from the spec (sections 2 and 3): the Resolver owns the
resolution map and the per-call context — referrer path, production flag
(lib.rs line 94 passes the negated dev flag), the plugin-resolution
flag (lib.rs line 95 passes the literal false), and the accumulated
dependency list. -/
structure Resolver where
  specifier : String
  import_map : ImportMap
  in_production : Bool
  has_plugin_resolves : Bool
  deps : List DependencyDescriptor
  deriving Repr, DecidableEq

/-- Resolver::new as invoked at lib.rs lines 91-96: referrer path,
constructed import map, production flag, plugin-resolution flag; the
dependency list starts empty. -/
def Resolver.new (specifier : String) (im : ImportMap)
    (in_production has_plugin_resolves : Bool) : Resolver :=
  { specifier := specifier, import_map := im, in_production := in_production
    has_plugin_resolves := has_plugin_resolves, deps := [] }

/-- Modelled from the spec (section 4.2): specifier classes. -/
inductive SpecifierKind where
  | relative | absolute | remote | bare
  deriving Repr, DecidableEq

/-- Modelled from the spec (section 4.2 and the glossary): a specifier
is relative, an absolute path, a fully-qualified remote URL, or bare. -/
def classifySpecifier (s : String) : SpecifierKind :=
  if ("./").data.isPrefixOf s.data || ("../").data.isPrefixOf s.data then .relative
  else if ("/").data.isPrefixOf s.data then .absolute
  else if ("http://").data.isPrefixOf s.data || ("https://").data.isPrefixOf s.data then .remote
  else .bare

/-- Collapse dot and dot-dot path segments against a stack of segments
already emitted. -/
def collapseSegments (stack : List String) : List String → List String
  | [] => stack.reverse
  | "." :: rest => collapseSegments stack rest
  | ".." :: rest => collapseSegments (stack.drop 1) rest
  | seg :: rest => collapseSegments (seg :: stack) rest

/-- Modelled from the spec (section 4.2): a relative or absolute
specifier is resolved against the referrer path to a normalized
absolute path. -/
def normalizeSpecifier (referrer s : String) : String :=
  let base :=
    if ("/").data.isPrefixOf s.data then []
    else ((referrer.splitOn "/").dropLast).filter (fun seg => seg ≠ "")
  let segs := collapseSegments [] (base ++ (s.splitOn "/").filter (fun seg => seg ≠ ""))
  "/" ++ String.intercalate "/" segs

/-- The value returned by one resolve call: the rewritten specifier and
whether it was marked pending for an external plugin resolver. -/
structure ResolveOutcome where
  resolved : String
  pending : Bool
  deriving Repr, DecidableEq

/-- Modelled from the spec (section 4.2): Resolver.resolve.  Relative
and absolute specifiers are normalized and then offered to the import
map, falling back to the normalized path.  Bare and remote specifiers
are offered to the import map first; when unmatched they pass through
unchanged unless the plugin-resolution flag is set, in which case they
are marked pending.  Every call appends one dependency record.  The
production-mode extension rewrite of local paths is not modelled; no
claim depends on it. -/
def Resolver.resolve (r : Resolver) (s : String) (is_dynamic : Bool) :
    ResolveOutcome × Resolver :=
  let out :=
    match classifySpecifier s with
    | .relative | .absolute =>
      let fixed := normalizeSpecifier r.specifier s
      match r.import_map.resolve fixed r.specifier with
      | some t => { resolved := t, pending := false : ResolveOutcome }
      | none => { resolved := fixed, pending := false : ResolveOutcome }
    | _ =>
      match r.import_map.resolve s r.specifier with
      | some t => { resolved := t, pending := false : ResolveOutcome }
      | none =>
        if r.has_plugin_resolves then { resolved := s, pending := true : ResolveOutcome }
        else { resolved := s, pending := false : ResolveOutcome }
  (out,
    { r with
      deps := r.deps ++ [{ specifier := s, resolved := out.resolved
                           is_dynamic := is_dynamic }] })

/-! ### Syntax tree and transform pipeline (modelled: swc.rs,
jsx handling and fast_refresh.rs are not under src/; the spec treats the
underlying parser and printer engine as an external capability) -/

/-- Modelled from the spec: a small expression tree covering the
constructs the pipeline stages act on — identifiers, string literals,
calls, arrow functions, JSX elements and fragments. -/
inductive Expr where
  | ident (name : String) : Expr
  | strLit (value : String) : Expr
  | call (callee : Expr) (args : List Expr) : Expr
  | arrow (body : Expr) : Expr
  | jsxElement (tag : String) (children : List Expr) : Expr
  | jsxFragment (children : List Expr) : Expr
  deriving Repr

/-- Modelled from the spec: top-level module items — import
declarations, named exports, re-exports, statements, and the synthetic
refresh-registration item injected only by the fast-refresh stage. -/
inductive ModuleItem where
  | importDecl (specifier : String) : ModuleItem
  | exportNamed (name : String) (value : Expr) : ModuleItem
  | exportFrom (specifier : String) : ModuleItem
  | stmt (e : Expr) : ModuleItem
  | refreshReg (componentName : String) : ModuleItem
  deriving Repr

/-- A parsed module is its list of items. -/
abbrev Module := List ModuleItem

mutual

/-- Modelled from the spec (section 4.3 stage 3): every JSX construct is
lowered to an explicit call of the configured factory or fragment
factory; all other constructs are rebuilt unchanged. -/
def lowerExpr (fac frag : String) : Expr → Expr
  | .ident n => .ident n
  | .strLit v => .strLit v
  | .call c args => .call (lowerExpr fac frag c) (lowerExprs fac frag args)
  | .arrow b => .arrow (lowerExpr fac frag b)
  | .jsxElement tag children => .call (.ident fac) (.strLit tag :: lowerExprs fac frag children)
  | .jsxFragment children => .call (.ident frag) (lowerExprs fac frag children)

/-- Pointwise JSX lowering of a list of expressions. -/
def lowerExprs (fac frag : String) : List Expr → List Expr
  | [] => []
  | e :: es => lowerExpr fac frag e :: lowerExprs fac frag es

end

/-- JSX lowering applied to one module item. -/
def lowerItem (fac frag : String) : ModuleItem → ModuleItem
  | .exportNamed n v => .exportNamed n (lowerExpr fac frag v)
  | .stmt e => .stmt (lowerExpr fac frag e)
  | it => it

/-- Modelled from the spec (section 4.3 stage 2): rewrite the specifier
of every import and re-export site through the Resolver, threading its
dependency list. -/
def resolveItem (r : Resolver) : ModuleItem → ModuleItem × Resolver
  | .importDecl s =>
    let (out, r2) := r.resolve s false
    (.importDecl out.resolved, r2)
  | .exportFrom s =>
    let (out, r2) := r.resolve s false
    (.exportFrom out.resolved, r2)
  | it => (it, r)

/-- Specifier rewriting over a whole module, in source order. -/
def resolveItems (r : Resolver) : Module → Module × Resolver
  | [] => ([], r)
  | it :: rest =>
    ((resolveItem r it).1 :: (resolveItems (resolveItem r it).2 rest).1,
      (resolveItems (resolveItem r it).2 rest).2)

/-- The name under which a component item is registered. -/
def componentName : ModuleItem → String
  | .exportNamed name _ => name
  | _ => ""

/-- Modelled from the spec (section 4.3 stage 4): the component
heuristic — an exported binding with a capitalized name whose value is a
function. -/
def isComponentItem : ModuleItem → Bool
  | .exportNamed name (.arrow _) => !name.isEmpty && name.front.isUpper
  | _ => false

/-- Modelled from the spec (section 4.3 stage 4): the fast-refresh
stage.  It is mounted unconditionally in the stage chain but guarded by
the dev flag: with the flag set, every recognized component is followed
by a refresh-registration item; with the flag unset every item passes
through alone. -/
def fast_refresh (enabled : Bool) (m : Module) : Module :=
  m.flatMap (fun it =>
    if enabled && isComponentItem it then [it, .refreshReg (componentName it)]
    else [it])

mutual

/-- Serialization of one expression back to text. -/
def emitExpr : Expr → String
  | .ident n => n
  | .strLit v => "\"" ++ v ++ "\""
  | .call c args => emitExpr c ++ "(" ++ String.intercalate ", " (emitExprs args) ++ ")"
  | .arrow b => "() => " ++ emitExpr b
  | .jsxElement tag children =>
    "<" ++ tag ++ ">" ++ String.intercalate "" (emitExprs children) ++ "</" ++ tag ++ ">"
  | .jsxFragment children => "<>" ++ String.intercalate "" (emitExprs children) ++ "</>"

/-- Serialization of a list of expressions. -/
def emitExprs : List Expr → List String
  | [] => []
  | e :: es => emitExpr e :: emitExprs es

end

/-- Serialization of one module item back to text. -/
def emitItem : ModuleItem → String
  | .importDecl s => "import \"" ++ s ++ "\";"
  | .exportNamed n v => "export const " ++ n ++ " = " ++ emitExpr v ++ ";"
  | .exportFrom s => "export * from \"" ++ s ++ "\";"
  | .stmt e => emitExpr e ++ ";"
  | .refreshReg n => "$RefreshReg$(" ++ n ++ ", \"" ++ n ++ "\");"

/-- Serialization of a module back to text. -/
def emit (m : Module) : String := String.intercalate "\n" (m.map emitItem)

/-- The EmitOptions struct built at lib.rs lines 100-104: JSX factory,
JSX fragment factory and the dev flag. -/
structure EmitOptions where
  jsx_factory : String
  jsx_fragment_factory : String
  is_dev : Bool
  deriving Repr, DecidableEq

/-- Modelled from the spec (section 4.3): the tree-transform stages in
their mandated order — specifier resolution, JSX pragma rewrite,
fast-refresh instrumentation — returning the transformed items and the
finalized resolver. -/
def transformStages (r : Resolver) (opts : EmitOptions) (m : Module) :
    Module × Resolver :=
  (fast_refresh opts.is_dev
      ((resolveItems r m).1.map (lowerItem opts.jsx_factory opts.jsx_fragment_factory)),
    (resolveItems r m).2)

/-- Modelled from the spec (section 4.3): ParsedModule::transpile
(swc.rs, not under src/) — transform stages followed by emission.  No
source-map request mechanism is visible in EmitOptions, so the optional
map of the result is absent. -/
def transpile (m : Module) (r : Resolver) (opts : EmitOptions) :
    (String × Option String) × Resolver :=
  ((emit (transformStages r opts m).1, none), (transformStages r opts m).2)

/-! ### transform_sync (lib.rs lines 82-109) -/

/-- Modelled from the spec (section 7): the parse diagnostic, fatal and
carrying position information. -/
structure ParseError where
  msg : String
  line : Nat
  col : Nat
  deriving Repr, DecidableEq

/-- The debug rendering of a parse diagnostic, as interpolated into the
panic message by expect. -/
def ParseError.debugStr (e : ParseError) : String :=
  e.msg ++ " at " ++ toString e.line ++ ":" ++ toString e.col

/-- The TransformOutput struct of lib.rs lines 75-80. -/
structure TransformOutput where
  code : String
  map : Option String
  deriving Repr, DecidableEq

/-- Serde serialization of TransformOutput (lib.rs lines 75-80): code is
always written; map carries skip_serializing_if Option::is_none, so an
absent source map omits the field entirely instead of writing null. -/
def serializeTransformOutput (o : TransformOutput) : Json :=
  .obj (("code", .str o.code) ::
    (match o.map with
     | none => []
     | some m => [("map", .str m)]))

/-- How one invocation of transform_sync terminates: a value returned
through the Ok channel of the Result, an error value returned through
its Err channel, or a panic raised by expect or unwrap. -/
inductive Outcome where
  | ok (output : TransformOutput) : Outcome
  | err (e : String) : Outcome
  | panicked (msg : String) : Outcome
  deriving Repr, DecidableEq

/-- The pipeline stages of transform_sync, in the order the code runs
them: option deserialization (lines 86-88), module parsing (lines
89-90), import-map construction (line 93, inside the Resolver
construction), transpilation (lines 97-106). -/
inductive Stage where
  | deserializeStage | parseStage | buildImportMapStage | transpileStage
  deriving Repr, DecidableEq

/-- The only cross-call host state transform_sync touches: the
process-wide panic hook installed by console_error_panic_hook::set_once
at lib.rs line 84. -/
structure HostState where
  panic_hook_installed : Bool
  deriving Repr, DecidableEq

/-- The EmitOptions value built from the deserialized options at lib.rs
lines 100-104. -/
def emitOptionsOf (opts : Options) : EmitOptions :=
  { jsx_factory := opts.swc_options.jsx_factory
    jsx_fragment_factory := opts.swc_options.jsx_fragment_factory
    is_dev := opts.swc_options.is_dev }

/-- transform_sync of lib.rs lines 82-109, embedded with the parse and
transpile capabilities as parameters (ParsedModule lives in swc.rs,
which is not under src/; the spec treats the engine as an external
capability).  The embedding threads the host state and also returns the
list of stages the call executed, in order.  Faithful structure:
deserialization failure is returned as an Err through the Result (lines
86-88); parse failure and transpile failure panic through expect (lines
90 and 106); import-map construction, which the spec-modelled
from_hashmap makes fallible, sits inside the Resolver construction after
parsing (line 93) and has no Result channel, so its failure also
panics; on success the serialized output is returned (line 108). -/
def transform_sync
    (parseFn : String → String → JscTarget → Except ParseError Module)
    (transpileFn : Module → Resolver → EmitOptions → Except String (String × Option String))
    (_st : HostState) (s : String) (optsJson : Json) :
    HostState × Outcome × List Stage :=
  let st2 : HostState := { panic_hook_installed := true }
  match deserializeOptions optsJson with
  | .error e => (st2, .err ("failed to parse options: " ++ e), [.deserializeStage])
  | .ok opts =>
    match parseFn opts.filename s opts.swc_options.target with
    | .error pe =>
      (st2, .panicked ("could not parse module: " ++ pe.debugStr),
        [.deserializeStage, .parseStage])
    | .ok m =>
      match ImportMap.from_hashmap opts.import_map with
      | .error ce =>
        (st2, .panicked ce, [.deserializeStage, .parseStage, .buildImportMapStage])
      | .ok im =>
        let resolver := Resolver.new opts.filename im (!opts.swc_options.is_dev) false
        match transpileFn m resolver (emitOptionsOf opts) with
        | .error te =>
          (st2, .panicked ("could not transpile module: " ++ te),
            [.deserializeStage, .parseStage, .buildImportMapStage, .transpileStage])
        | .ok (code, map) =>
          (st2, .ok { code := code, map := map },
            [.deserializeStage, .parseStage, .buildImportMapStage, .transpileStage])

/-! ### Predicates and fixtures used by the verification statements -/

/-- Does the request carry a field name outside the declared schema,
either at the top level of the options object or inside the swcOptions
object? -/
def requestHasUnknownField : Json → Bool
  | .obj fields =>
    fields.any (fun kv => !optionFields.contains kv.1) ||
      (match fields.lookup "swcOptions" with
       | some (.obj inner) => inner.any (fun kv => !swcOptionFields.contains kv.1)
       | _ => false)
  | _ => false

/-- The field names of a serialized JSON object. -/
def jsonObjFieldNames : Json → List String
  | .obj fields => fields.map Prod.fst
  | _ => []

/-- Is a module item a synthetic refresh-registration item? -/
def isRefreshReg : ModuleItem → Bool
  | .refreshReg _ => true
  | _ => false

/-- Does a module contain no refresh-registration item at all? -/
def noRefreshRegs (m : Module) : Bool :=
  m.all (fun it => !isRefreshReg it)

/-- A parse capability that always succeeds with the empty module. -/
def parseOkFn : String → String → JscTarget → Except ParseError Module :=
  fun _ _ _ => .ok []

/-- A parse capability that always fails, as an arbitrary syntactically
invalid source would make the real parser do. -/
def parseFailFn : String → String → JscTarget → Except ParseError Module :=
  fun _ _ _ => .error { msg := "Unexpected token", line := 1, col := 9 }

/-- The spec-modelled transpile capability wrapped into the fallible
signature transform_sync consumes. -/
def transpileFn0 : Module → Resolver → EmitOptions → Except String (String × Option String) :=
  fun m r opts => .ok (transpile m r opts).1

/-- A minimal well-formed request: just the required filename. -/
def plainRequest : Json := .obj [("filename", .str "/app.tsx")]

/-- A request whose import map repeats the top-level key react. -/
def dupMapRequest : Json :=
  .obj [("filename", .str "/app.tsx"),
        ("importMap",
          .obj [("imports", .obj [("react", .str "/a.js"), ("react", .str "/b.js")])])]

/-- The host state before any call. -/
def hostState0 : HostState := { panic_hook_installed := false }

/-- A request with a field name outside the declared schema at the top
level of the options object. -/
def unknownFieldRequest : Json :=
  .obj [("filename", .str "/app.tsx"), ("sourceType", .str "tsx")]

/-- A request in which the swcOptions object is present but empty, so
every one of its fields takes its serde default. -/
def partialSwcRequest : Json :=
  .obj [("filename", .str "/app.tsx"), ("swcOptions", .obj [])]

/-- A transpile capability that always fails, as an internal emit
defect would make the real transpiler do. -/
def transpileFailFn : Module → Resolver → EmitOptions → Except String (String × Option String) :=
  fun _ _ _ => .error "invalid module shape"

/-- The entry set of the longest-prefix example in the spec: keys a/
and a/b/. -/
def abEntries : List (String × String) := [("a/", "/x/"), ("a/b/", "/y/")]

/-- A resolver over a one-entry import map, in production mode, without
plugin resolution. -/
def sampleResolver : Resolver :=
  Resolver.new "/app.tsx" { imports := [("foo", "/deps/foo.js")], scopes := [] } true false

/-- A module with one import and one exported component. -/
def sampleModule : Module :=
  [.importDecl "foo", .exportNamed "A" (.arrow (.jsxElement "div" []))]

/-- A fully defaulted production-mode options value. -/
def prodOptions : Options :=
  { filename := "/app.tsx", import_map := {}
    swc_options := { target := .es2020, jsx_factory := "React.createElement"
                     jsx_fragment_factory := "React.Fragment", is_dev := false } }

/-! ## Helper lemmas -/

/-- A field name outside the allowed schema makes the strict field scan
fail, whatever was already seen. -/
theorem scanFields_error_of_unknown (allowed : List String) (names : List String) :
    ∀ seen : List String, (∃ k ∈ names, k ∉ allowed) →
      ∃ e, scanFields allowed seen names = .error e := by
  induction names with
  | nil =>
    intro seen h
    rcases h with ⟨k, hk, _⟩
    exact absurd hk (List.not_mem_nil k)
  | cons k rest ih =>
    intro seen h
    by_cases hka : k ∈ allowed
    · by_cases hks : k ∈ seen
      · exact ⟨"duplicate field " ++ k, by simp [scanFields, hka, hks]⟩
      · rcases h with ⟨k0, hk0, hk0a⟩
        rcases List.mem_cons.mp hk0 with rfl | hmem
        · exact absurd hka hk0a
        · rcases ih (k :: seen) ⟨k0, hmem, hk0a⟩ with ⟨e, he⟩
          exact ⟨e, by simp [scanFields, hka, hks, he]⟩
    · exact ⟨"unknown field " ++ k, by simp [scanFields, hka]⟩

/-- An unknown field inside the swcOptions object fails its
deserialization. -/
theorem deserializeSWCOptions_error_of_unknown (fields : List (String × Json))
    (h : ∃ kv ∈ fields, kv.1 ∉ swcOptionFields) :
    ∃ e, deserializeSWCOptions (.obj fields) = .error e := by
  have hnames : ∃ k ∈ fields.map Prod.fst, k ∉ swcOptionFields := by
    rcases h with ⟨kv, hmem, hout⟩
    exact ⟨kv.1, List.mem_map_of_mem Prod.fst hmem, hout⟩
  rcases scanFields_error_of_unknown swcOptionFields (fields.map Prod.fst) [] hnames with ⟨e, he⟩
  exact ⟨e, by simp [deserializeSWCOptions, he]⟩

/-- An unknown field at the top level of the request fails option
deserialization. -/
theorem deserializeOptions_error_of_top_unknown (fields : List (String × Json))
    (h : ∃ kv ∈ fields, kv.1 ∉ optionFields) :
    ∃ e, deserializeOptions (.obj fields) = .error e := by
  have hnames : ∃ k ∈ fields.map Prod.fst, k ∉ optionFields := by
    rcases h with ⟨kv, hmem, hout⟩
    exact ⟨kv.1, List.mem_map_of_mem Prod.fst hmem, hout⟩
  rcases scanFields_error_of_unknown optionFields (fields.map Prod.fst) [] hnames with ⟨e, he⟩
  exact ⟨e, by simp [deserializeOptions, he]⟩

/-- An unknown field inside the swcOptions object fails option
deserialization as a whole, whichever earlier field stops first. -/
theorem deserializeOptions_error_of_swc_unknown (fields inner : List (String × Json))
    (hv : fields.lookup "swcOptions" = some (.obj inner))
    (h : ∃ kv ∈ inner, kv.1 ∉ swcOptionFields) :
    ∃ e, deserializeOptions (.obj fields) = .error e := by
  rcases deserializeSWCOptions_error_of_unknown inner h with ⟨e0, he0⟩
  rcases hscan : scanFields optionFields [] (fields.map Prod.fst) with e | u
  · exact ⟨e, by simp [deserializeOptions, hscan]⟩
  · rcases hfl : fields.lookup "filename" with _ | fv
    · exact ⟨"missing field filename", by simp [deserializeOptions, hscan, hfl]⟩
    · rcases hstr : asString fv with e | fn
      · exact ⟨e, by simp [deserializeOptions, hscan, hfl, hstr]⟩
      · rcases him : fields.lookup "importMap" with _ | iv
        · exact ⟨e0, by simp [deserializeOptions, hscan, hfl, hstr, optField, him, hv, he0]⟩
        · rcases hdm : deserializeImportHashMap iv with e | ihm
          · exact ⟨e, by simp [deserializeOptions, hscan, hfl, hstr, optField, him, hdm]⟩
          · exact ⟨e0, by simp [deserializeOptions, hscan, hfl, hstr, optField, him, hdm, hv, he0]⟩

/-- A request flagged by requestHasUnknownField fails option
deserialization. -/
theorem deserializeOptions_error_of_request_unknown (j : Json)
    (h : requestHasUnknownField j = true) :
    ∃ e, deserializeOptions j = .error e := by
  cases j with
  | null => simp [requestHasUnknownField] at h
  | bool b => simp [requestHasUnknownField] at h
  | num n => simp [requestHasUnknownField] at h
  | str s => simp [requestHasUnknownField] at h
  | arr xs => simp [requestHasUnknownField] at h
  | obj fields =>
    rw [requestHasUnknownField, Bool.or_eq_true] at h
    rcases h with htop | hswc
    · apply deserializeOptions_error_of_top_unknown fields
      rcases List.any_eq_true.mp htop with ⟨kv, hmem, hkv⟩
      refine ⟨kv, hmem, fun hc => ?_⟩
      simp only [Bool.not_eq_true'] at hkv
      simp at hkv
      exact hkv hc
    · rcases hl : fields.lookup "swcOptions" with _ | v
      · rw [hl] at hswc; simp at hswc
      · cases v with
        | obj inner =>
          rw [hl] at hswc
          simp only [] at hswc
          apply deserializeOptions_error_of_swc_unknown fields inner hl
          rcases List.any_eq_true.mp hswc with ⟨kv, hmem, hkv⟩
          refine ⟨kv, hmem, fun hc => ?_⟩
          simp only [Bool.not_eq_true'] at hkv
          simp at hkv
          exact hkv hc
        | null => rw [hl] at hswc; simp at hswc
        | bool b => rw [hl] at hswc; simp at hswc
        | num n => rw [hl] at hswc; simp at hswc
        | str s => rw [hl] at hswc; simp at hswc
        | arr xs => rw [hl] at hswc; simp at hswc

/-! ## Claim theorems -/

/-- C1: for every request whose top-level options object or swcOptions
object contains a field name outside the declared schema (filename and
importMap and swcOptions; target, jsxFactory, jsxFragmentFactory, isDev),
transform_sync returns an error and produces no code output — unknown
fields are a hard error, never silently ignored. -/
theorem transform_sync_rejects_unknown_fields
    (parseFn : String → String → JscTarget → Except ParseError Module)
    (transpileFn : Module → Resolver → EmitOptions → Except String (String × Option String))
    (st : HostState) (s : String) (j : Json)
    (h : requestHasUnknownField j = true) :
    (∃ e, (transform_sync parseFn transpileFn st s j).2.1 =
        .err ("failed to parse options: " ++ e)) ∧
    ∀ out, (transform_sync parseFn transpileFn st s j).2.1 ≠ .ok out := by
  rcases deserializeOptions_error_of_request_unknown j h with ⟨e, he⟩
  constructor
  · exact ⟨e, by simp [transform_sync, he]⟩
  · intro out hok
    simp [transform_sync, he] at hok

/-- Witness for C1 at a concrete request with the unknown top-level
field sourceType. -/
theorem transform_sync_rejects_unknown_fields_witness :
    ∃ e, (transform_sync parseOkFn transpileFn0 hostState0 "" unknownFieldRequest).2.1 =
      .err ("failed to parse options: " ++ e) :=
  (transform_sync_rejects_unknown_fields parseOkFn transpileFn0 hostState0 ""
    unknownFieldRequest (by rfl)).1

/-- C2: the claim states that target, jsxFactory, jsxFragmentFactory and
isDev default to ES2020, React.createElement, React.Fragment and true
when absent, and an absent importMap defaults to the empty map.  The
code disagrees with its own Default impl for isDev: when the swcOptions
object is present but its isDev field is absent, the plain serde field
default deserializes is_dev to false, not true; the documented default
true is only reached when the whole swcOptions object is absent.  This
theorem evaluates the deserializer at both inputs and records the
mismatch against SWCOptions.default. -/
theorem deserializeOptions_isDev_default_mismatch :
    deserializeOptions partialSwcRequest =
      .ok { filename := "/app.tsx", import_map := {}
            swc_options := { target := default_target, jsx_factory := default_pragma
                             jsx_fragment_factory := default_pragma_frag, is_dev := false } } ∧
    deserializeOptions plainRequest =
      .ok { filename := "/app.tsx", import_map := {}, swc_options := SWCOptions.default } ∧
    SWCOptions.default.is_dev = true :=
  ⟨rfl, rfl, rfl⟩

/-- C3 counterexample: at a request whose import map repeats the
top-level key react, the call does not abort before parsing — the trace
shows the parse stage running before import-map construction, and the
abort is a construction panic, not a pre-parse ConfigError return. -/
theorem dup_key_map_does_not_abort_before_parse :
    (transform_sync parseOkFn transpileFn0 hostState0 "" dupMapRequest).2.2 =
      [.deserializeStage, .parseStage, .buildImportMapStage] ∧
    (transform_sync parseOkFn transpileFn0 hostState0 "" dupMapRequest).2.1 =
      .panicked "duplicate import map key" :=
  ⟨rfl, rfl⟩

/-- C3 amended: a request carrying an import map with a duplicate
top-level key still aborts the call with no code output, but only after
the source has been offered to the parser: option deserialization
precedes parsing, while import-map construction (lib.rs line 93) follows
it, so the abort surfaces after the parse stage, as a panic rather than
a returned ConfigError. -/
theorem transform_sync_dup_key_aborts_after_parse
    (parseFn : String → String → JscTarget → Except ParseError Module)
    (transpileFn : Module → Resolver → EmitOptions → Except String (String × Option String))
    (st : HostState) (s : String) (j : Json) (o : Options)
    (hde : deserializeOptions j = .ok o)
    (hdup : hasDup (o.import_map.imports.map Prod.fst) = true) :
    (∃ msg, (transform_sync parseFn transpileFn st s j).2.1 = .panicked msg) ∧
    (∀ out, (transform_sync parseFn transpileFn st s j).2.1 ≠ .ok out) ∧
    ((transform_sync parseFn transpileFn st s j).2.2 = [.deserializeStage, .parseStage] ∨
      (transform_sync parseFn transpileFn st s j).2.2 =
        [.deserializeStage, .parseStage, .buildImportMapStage]) := by
  rcases hp : parseFn o.filename s o.swc_options.target with pe | m
  · refine ⟨⟨"could not parse module: " ++ pe.debugStr, ?_⟩, ?_, Or.inl ?_⟩
    · simp [transform_sync, hde, hp]
    · intro out hok; simp [transform_sync, hde, hp] at hok
    · simp [transform_sync, hde, hp]
  · have hfm : ImportMap.from_hashmap o.import_map = .error "duplicate import map key" := by
      simp [ImportMap.from_hashmap, hdup]
    refine ⟨⟨"duplicate import map key", ?_⟩, ?_, Or.inr ?_⟩
    · simp [transform_sync, hde, hp, hfm]
    · intro out hok; simp [transform_sync, hde, hp, hfm] at hok
    · simp [transform_sync, hde, hp, hfm]

/-- Witness for the amended C3 at the concrete duplicate-key request. -/
theorem transform_sync_dup_key_aborts_after_parse_witness :
    ∃ msg, (transform_sync parseOkFn transpileFn0 hostState0 "" dupMapRequest).2.1 =
      .panicked msg :=
  (transform_sync_dup_key_aborts_after_parse parseOkFn transpileFn0 hostState0 "" dupMapRequest
    { filename := "/app.tsx"
      import_map := { imports := [("react", "/a.js"), ("react", "/b.js")], scopes := [] }
      swc_options := SWCOptions.default }
    (by rfl) (by rfl)).1

/-- C4 counterexample: at a concrete request whose source text fails to
parse, the error is not returned to the caller as the sole result — the
call terminates by panic through expect, so no ParseError value travels
back through the Result channel. -/
theorem parse_failure_is_panic_not_returned_error :
    (transform_sync parseFailFn transpileFn0 hostState0 "import x from" plainRequest).2.1 =
      .panicked "could not parse module: Unexpected token at 1:9" ∧
    ¬ ∃ e, (transform_sync parseFailFn transpileFn0 hostState0 "import x from" plainRequest).2.1 =
      .err e := by
  have h1 : (transform_sync parseFailFn transpileFn0 hostState0 "import x from" plainRequest).2.1 =
      Outcome.panicked "could not parse module: Unexpected token at 1:9" := rfl
  refine ⟨h1, ?_⟩
  rintro ⟨e, he⟩
  rw [h1] at he
  exact Outcome.noConfusion he

/-- C4 amended: for every request whose source text cannot be parsed,
the call aborts with no partial output and the response has no code
field — but through a panic (expect) whose message wraps the positioned
parse diagnostic, not through a returned error value. -/
theorem transform_sync_parse_failure_aborts_by_panic
    (parseFn : String → String → JscTarget → Except ParseError Module)
    (transpileFn : Module → Resolver → EmitOptions → Except String (String × Option String))
    (st : HostState) (s : String) (j : Json) (o : Options) (pe : ParseError)
    (hde : deserializeOptions j = .ok o)
    (hp : parseFn o.filename s o.swc_options.target = .error pe) :
    (transform_sync parseFn transpileFn st s j).2.1 =
      .panicked ("could not parse module: " ++ pe.debugStr) ∧
    (∀ out, (transform_sync parseFn transpileFn st s j).2.1 ≠ .ok out) ∧
    (transform_sync parseFn transpileFn st s j).2.2 = [.deserializeStage, .parseStage] := by
  refine ⟨?_, ?_, ?_⟩
  · simp [transform_sync, hde, hp]
  · intro out hok; simp [transform_sync, hde, hp] at hok
  · simp [transform_sync, hde, hp]

/-- Witness for the amended C4 at the concrete failing parse. -/
theorem transform_sync_parse_failure_aborts_by_panic_witness :
    (transform_sync parseFailFn transpileFn0 hostState0 "import x from" plainRequest).2.1 =
      .panicked ("could not parse module: " ++
        ParseError.debugStr { msg := "Unexpected token", line := 1, col := 9 }) :=
  (transform_sync_parse_failure_aborts_by_panic parseFailFn transpileFn0 hostState0
    "import x from" plainRequest
    { filename := "/app.tsx", import_map := {}, swc_options := SWCOptions.default }
    { msg := "Unexpected token", line := 1, col := 9 } (by rfl) (by rfl)).1

/-- C5: every successful call serializes to a response that always
carries a code field holding the code string, and when no source map was
produced the map field is entirely absent from the serialized object —
not present as null. -/
theorem transform_sync_success_serialization
    (parseFn : String → String → JscTarget → Except ParseError Module)
    (transpileFn : Module → Resolver → EmitOptions → Except String (String × Option String))
    (st : HostState) (s : String) (j : Json) (out : TransformOutput)
    (_h : (transform_sync parseFn transpileFn st s j).2.1 = .ok out) :
    (∃ rest, serializeTransformOutput out = .obj (("code", .str out.code) :: rest)) ∧
    (out.map = none → "map" ∉ jsonObjFieldNames (serializeTransformOutput out)) ∧
    (∀ mstr, out.map = some mstr →
      serializeTransformOutput out = .obj [("code", .str out.code), ("map", .str mstr)]) := by
  rcases hm : out.map with _ | mstr
  · refine ⟨⟨[], by simp [serializeTransformOutput, hm]⟩, ?_, ?_⟩
    · intro _
      simp [serializeTransformOutput, hm, jsonObjFieldNames]
    · intro mstr hcontra
      exact Option.noConfusion hcontra
  · refine ⟨⟨[("map", .str mstr)], by simp [serializeTransformOutput, hm]⟩, ?_, ?_⟩
    · intro hcontra
      exact Option.noConfusion hcontra
    · intro mstr2 hsome
      rcases Option.some.inj hsome with rfl
      simp [serializeTransformOutput, hm]

/-- Witness for C5 at a concrete successful call: the empty module
transpiles to an empty code string with no source map, and the
serialized response has a code field and no map field. -/
theorem transform_sync_success_serialization_witness :
    (∃ rest, serializeTransformOutput { code := "", map := none } =
      .obj (("code", .str "") :: rest)) ∧
    "map" ∉ jsonObjFieldNames (serializeTransformOutput { code := "", map := none }) :=
  ⟨(transform_sync_success_serialization parseOkFn transpileFn0 hostState0 "" plainRequest
      { code := "", map := none } rfl).1,
    (transform_sync_success_serialization parseOkFn transpileFn0 hostState0 "" plainRequest
      { code := "", map := none } rfl).2.1 rfl⟩

/-- C6: transform_sync is deterministic and stateless across calls —
for one fixed engine, the outcome and stage trace are independent of the
incoming host state, a repeated invocation with identical inputs after a
first call produces the identical result, and the only host state the
call touches is the idempotent installation of the panic hook. -/
theorem transform_sync_stateless_deterministic
    (parseFn : String → String → JscTarget → Except ParseError Module)
    (transpileFn : Module → Resolver → EmitOptions → Except String (String × Option String))
    (st1 st2 : HostState) (s : String) (j : Json) :
    (transform_sync parseFn transpileFn st1 s j).2 =
      (transform_sync parseFn transpileFn st2 s j).2 ∧
    (transform_sync parseFn transpileFn
        (transform_sync parseFn transpileFn st1 s j).1 s j).2 =
      (transform_sync parseFn transpileFn st1 s j).2 ∧
    (transform_sync parseFn transpileFn st1 s j).1 = { panic_hook_installed := true } := by
  refine ⟨rfl, rfl, ?_⟩
  rcases hde : deserializeOptions j with e | o
  · simp [transform_sync, hde]
  · rcases hp : parseFn o.filename s o.swc_options.target with pe | m
    · simp [transform_sync, hde, hp]
    · rcases hfm : ImportMap.from_hashmap o.import_map with ce | im
      · simp [transform_sync, hde, hp, hfm]
      · rcases ht : transpileFn m (Resolver.new o.filename im (!o.swc_options.is_dev) false)
            (emitOptionsOf o) with te | pair
        · simp [transform_sync, hde, hp, hfm, ht]
        · rcases pair with ⟨code, map⟩
          simp [transform_sync, hde, hp, hfm, ht]

/-- C10: transform_sync returns an error value through its Result
channel exactly when option deserialization fails; a parse failure and a
transpile failure instead terminate the call by panic through expect,
never as a returned error value. -/
theorem transform_sync_result_channels
    (parseFn : String → String → JscTarget → Except ParseError Module)
    (transpileFn : Module → Resolver → EmitOptions → Except String (String × Option String))
    (st : HostState) (s : String) (j : Json) :
    (∀ e, (transform_sync parseFn transpileFn st s j).2.1 = .err e →
      ∃ e0, deserializeOptions j = .error e0 ∧ e = "failed to parse options: " ++ e0) ∧
    (∀ o pe, deserializeOptions j = .ok o →
      parseFn o.filename s o.swc_options.target = .error pe →
      (transform_sync parseFn transpileFn st s j).2.1 =
        .panicked ("could not parse module: " ++ pe.debugStr)) ∧
    (∀ o m im te, deserializeOptions j = .ok o →
      parseFn o.filename s o.swc_options.target = .ok m →
      ImportMap.from_hashmap o.import_map = .ok im →
      transpileFn m (Resolver.new o.filename im (!o.swc_options.is_dev) false)
        (emitOptionsOf o) = .error te →
      (transform_sync parseFn transpileFn st s j).2.1 =
        .panicked ("could not transpile module: " ++ te)) := by
  refine ⟨?_, ?_, ?_⟩
  · intro e he
    rcases hde : deserializeOptions j with e0 | o
    · simp [transform_sync, hde] at he
      exact ⟨e0, rfl, he.symm⟩
    · rcases hp : parseFn o.filename s o.swc_options.target with pe | m
      · simp [transform_sync, hde, hp] at he
      · rcases hfm : ImportMap.from_hashmap o.import_map with ce | im
        · simp [transform_sync, hde, hp, hfm] at he
        · rcases ht : transpileFn m (Resolver.new o.filename im (!o.swc_options.is_dev) false)
              (emitOptionsOf o) with te | pair
          · simp [transform_sync, hde, hp, hfm, ht] at he
          · rcases pair with ⟨code, map⟩
            simp [transform_sync, hde, hp, hfm, ht] at he
  · intro o pe hde hp
    simp [transform_sync, hde, hp]
  · intro o m im te hde hp hfm ht
    simp [transform_sync, hde, hp, hfm, ht]

/-- Witness for C10 at a concrete transpile failure: the failure
surfaces as a panic, exercising the third channel. -/
theorem transform_sync_result_channels_witness :
    (transform_sync parseOkFn transpileFailFn hostState0 "" plainRequest).2.1 =
      .panicked ("could not transpile module: " ++ "invalid module shape") :=
  (transform_sync_result_channels parseOkFn transpileFailFn hostState0 "" plainRequest).2.2
    { filename := "/app.tsx", import_map := {}, swc_options := SWCOptions.default }
    [] { imports := [], scopes := [] } "invalid module shape" (by rfl) (by rfl) (by rfl) (by rfl)

/-- One selection step either keeps the accumulator or switches to the
new entry, and switches only to a matching entry. -/
theorem matchStep_cases (spec : String) (acc : Option (String × String))
    (e : String × String) :
    matchStep spec acc e = acc ∨
      (matchStep spec acc e = some e ∧ matchKey e.1 spec = true) := by
  unfold matchStep
  by_cases hm : matchKey e.1 spec = true
  · rcases acc with _ | b
    · right; exact ⟨by simp [hm], hm⟩
    · by_cases hl : b.1.length < e.1.length
      · right; exact ⟨by simp [hm, hl], hm⟩
      · left; simp [hm, hl]
  · left; simp [hm]

/-- Once a candidate is held, folding over more entries keeps some
candidate whose key is at least as long. -/
theorem foldl_matchStep_mono (spec : String) (entries : List (String × String)) :
    ∀ b : String × String,
      ∃ c, entries.foldl (matchStep spec) (some b) = some c ∧ b.1.length ≤ c.1.length := by
  induction entries with
  | nil => intro b; exact ⟨b, rfl, le_refl _⟩
  | cons e rest ih =>
    intro b
    have hstep : ∃ c0, matchStep spec (some b) e = some c0 ∧ b.1.length ≤ c0.1.length := by
      unfold matchStep
      by_cases hm : matchKey e.1 spec = true
      · by_cases hl : b.1.length < e.1.length
        · exact ⟨e, by simp [hm, hl], le_of_lt hl⟩
        · exact ⟨b, by simp [hm, hl], le_refl _⟩
      · exact ⟨b, by simp [hm], le_refl _⟩
    rcases hstep with ⟨c0, hc0, hbc0⟩
    rcases ih c0 with ⟨c, hc, hc0c⟩
    refine ⟨c, ?_, le_trans hbc0 hc0c⟩
    rw [List.foldl_cons, hc0]
    exact hc

/-- Every matching entry of the set is dominated by the selected
candidate: the fold yields some candidate at least as long as any
matching key. -/
theorem foldl_matchStep_dominates (spec : String) (entries : List (String × String)) :
    ∀ (acc : Option (String × String)) (k v : String),
      (k, v) ∈ entries → matchKey k spec = true →
      ∃ c, entries.foldl (matchStep spec) acc = some c ∧ k.length ≤ c.1.length := by
  induction entries with
  | nil =>
    intro acc k v hmem _
    exact absurd hmem (List.not_mem_nil _)
  | cons e rest ih =>
    intro acc k v hmem hk
    rcases List.mem_cons.mp hmem with heq | hmem2
    · have hstep : ∃ c0, matchStep spec acc e = some c0 ∧ k.length ≤ c0.1.length := by
        rw [← heq]
        unfold matchStep
        rcases acc with _ | b
        · exact ⟨(k, v), by simp [hk], le_refl _⟩
        · by_cases hl : b.1.length < k.length
          · exact ⟨(k, v), by simp [hk, hl], le_refl _⟩
          · exact ⟨b, by simp [hk, hl], le_of_not_lt hl⟩
      rcases hstep with ⟨c0, hc0, hkc0⟩
      rcases foldl_matchStep_mono spec rest c0 with ⟨c, hc, hc0c⟩
      refine ⟨c, ?_, le_trans hkc0 hc0c⟩
      rw [List.foldl_cons, hc0]
      exact hc
    · rw [List.foldl_cons]
      exact ih (matchStep spec acc e) k v hmem2 hk

/-- The selected candidate is sound: it came from the entry set and its
key matches, unless it was already the accumulator. -/
theorem foldl_matchStep_sound (spec : String) (entries : List (String × String)) :
    ∀ (acc : Option (String × String)) (c : String × String),
      entries.foldl (matchStep spec) acc = some c →
      (c ∈ entries ∧ matchKey c.1 spec = true) ∨ acc = some c := by
  induction entries with
  | nil => intro acc c h; exact Or.inr h
  | cons e rest ih =>
    intro acc c h
    rw [List.foldl_cons] at h
    rcases ih (matchStep spec acc e) c h with ⟨hmem, hm⟩ | hacc
    · exact Or.inl ⟨List.mem_cons_of_mem e hmem, hm⟩
    · rcases matchStep_cases spec acc e with hs | ⟨hs, hm⟩
      · rw [hs] at hacc
        exact Or.inr hacc
      · rw [hs] at hacc
        rcases Option.some.inj hacc with rfl
        exact Or.inl ⟨List.mem_cons_self _ _, hm⟩

/-- A matching key is never longer than the specifier. -/
theorem matchKey_length_le (k spec : String) (h : matchKey k spec = true) :
    k.length ≤ spec.length := by
  unfold matchKey at h
  rw [Bool.or_eq_true] at h
  rcases h with he | hp
  · rcases eq_of_beq he with rfl
    exact le_refl _
  · rw [Bool.and_eq_true] at hp
    have hpre : k.data <+: spec.data := List.isPrefixOf_iff_prefix.mp hp.2
    exact hpre.length_le

/-- A matching key at least as long as the specifier is the specifier
itself — an exact match. -/
theorem matchKey_eq_of_length_ge (k spec : String) (h : matchKey k spec = true)
    (hlen : spec.length ≤ k.length) : k = spec := by
  unfold matchKey at h
  rw [Bool.or_eq_true] at h
  rcases h with he | hp
  · exact eq_of_beq he
  · rw [Bool.and_eq_true] at hp
    have hpre : k.data <+: spec.data := List.isPrefixOf_iff_prefix.mp hp.2
    exact String.ext (hpre.eq_of_length (le_antisymm hpre.length_le hlen))

/-- C7: import-map resolution is longest-prefix-wins within the selected
entry set — the selected key matches, belongs to the set, and is at
least as long as every matching key, an exact key match is preferred
over any shorter prefix match, and duplicate (equal-length tie) keys are
rejected at map construction rather than at resolution. -/
theorem import_map_longest_prefix_wins
    (entries : List (String × String)) (spec k v : String)
    (hmem : (k, v) ∈ entries) (hmatch : matchKey k spec = true) :
    (∃ c, bestMatch entries spec = some c ∧ c ∈ entries ∧ matchKey c.1 spec = true ∧
      k.length ≤ c.1.length ∧ ∀ w, (spec, w) ∈ entries → c.1 = spec) ∧
    (∀ hm : ImportHashMap, hasDup (hm.imports.map Prod.fst) = true →
      ImportMap.from_hashmap hm = .error "duplicate import map key") := by
  constructor
  · rcases foldl_matchStep_dominates spec entries none k v hmem hmatch with ⟨c, hc, hkc⟩
    have hsound := foldl_matchStep_sound spec entries none c hc
    rcases hsound with ⟨hcmem, hcm⟩ | habs
    · refine ⟨c, hc, hcmem, hcm, hkc, ?_⟩
      intro w hw
      have hspecmatch : matchKey spec spec = true := by
        unfold matchKey
        simp
      rcases foldl_matchStep_dominates spec entries none spec w hw hspecmatch with ⟨c2, hc2, hlen2⟩
      rw [hc] at hc2
      rcases Option.some.inj hc2 with rfl
      exact matchKey_eq_of_length_ge c.1 spec hcm hlen2
    · exact Option.noConfusion habs
  · intro hm hd
    simp [ImportMap.from_hashmap, hd]

/-- Witness for C7 on the example of the spec: with keys a/ and a/b/
both matching a/b/c, resolution selects a/b/. -/
theorem import_map_longest_prefix_wins_witness :
    bestMatch abEntries "a/b/c" = some ("a/b/", "/y/") ∧
    (∃ c, bestMatch abEntries "a/b/c" = some c ∧ c ∈ abEntries ∧
      matchKey c.1 "a/b/c" = true ∧ ("a/").length ≤ c.1.length ∧
      ∀ w, ("a/b/c", w) ∈ abEntries → c.1 = "a/b/c") :=
  ⟨by rfl,
    (import_map_longest_prefix_wins abEntries "a/b/c" "a/" "/x/"
      (by simp [abEntries]) (by rfl)).1⟩

/-- Unfolding lemma: the refresh check over a cons cell. -/
theorem noRefreshRegs_cons (it : ModuleItem) (rest : Module) :
    noRefreshRegs (it :: rest) = ((!isRefreshReg it) && noRefreshRegs rest) := rfl

/-- JSX lowering never turns an item into a refresh registration. -/
theorem isRefreshReg_lowerItem (fac frag : String) (it : ModuleItem) :
    isRefreshReg (lowerItem fac frag it) = isRefreshReg it := by
  cases it <;> rfl

/-- Specifier rewriting never turns an item into a refresh
registration. -/
theorem isRefreshReg_resolveItem (r : Resolver) (it : ModuleItem) :
    isRefreshReg (resolveItem r it).1 = isRefreshReg it := by
  cases it <;> rfl

/-- Unfolding lemma: the items produced for a cons cell by specifier
rewriting. -/
theorem resolveItems_cons_fst (r : Resolver) (it : ModuleItem) (rest : Module) :
    (resolveItems r (it :: rest)).1 =
      (resolveItem r it).1 :: (resolveItems (resolveItem r it).2 rest).1 := rfl

/-- The JSX stage preserves freedom from refresh registrations. -/
theorem noRefreshRegs_map_lowerItem (fac frag : String) (l : Module)
    (h : noRefreshRegs l = true) :
    noRefreshRegs (l.map (lowerItem fac frag)) = true := by
  induction l with
  | nil => rfl
  | cons it rest ih =>
    rw [noRefreshRegs_cons, Bool.and_eq_true] at h
    rw [List.map_cons, noRefreshRegs_cons, Bool.and_eq_true]
    exact ⟨by rw [isRefreshReg_lowerItem]; exact h.1, ih h.2⟩

/-- The resolve stage preserves freedom from refresh registrations. -/
theorem noRefreshRegs_resolveItems (m : Module) :
    ∀ r : Resolver, noRefreshRegs m = true → noRefreshRegs (resolveItems r m).1 = true := by
  induction m with
  | nil => intro r _; rfl
  | cons it rest ih =>
    intro r h
    rw [noRefreshRegs_cons, Bool.and_eq_true] at h
    rw [resolveItems_cons_fst, noRefreshRegs_cons, Bool.and_eq_true]
    exact ⟨by rw [isRefreshReg_resolveItem]; exact h.1, ih (resolveItem r it).2 h.2⟩

/-- With the dev flag unset the fast-refresh stage is the identity. -/
theorem fast_refresh_false (m : Module) : fast_refresh false m = m := by
  induction m with
  | nil => rfl
  | cons it rest ih =>
    have hcons : fast_refresh false (it :: rest) = it :: fast_refresh false rest := rfl
    rw [hcons, ih]

/-- C8: for every request with the dev flag unset, the transformed
module contains no fast-refresh registration item — instrumentation is
fully skipped in production mode, not merely inert: the production
output is exactly the output of the pipeline without the refresh stage,
so the default runtime behavior of the module is unchanged. -/
theorem production_output_has_no_refresh_instrumentation
    (o : Options) (r : Resolver) (m : Module)
    (hdev : o.swc_options.is_dev = false)
    (hsrc : noRefreshRegs m = true) :
    noRefreshRegs (transformStages r (emitOptionsOf o) m).1 = true ∧
    (transformStages r (emitOptionsOf o) m).1 =
      (resolveItems r m).1.map
        (lowerItem o.swc_options.jsx_factory o.swc_options.jsx_fragment_factory) := by
  have hstage : (transformStages r (emitOptionsOf o) m).1 =
      fast_refresh o.swc_options.is_dev
        ((resolveItems r m).1.map
          (lowerItem o.swc_options.jsx_factory o.swc_options.jsx_fragment_factory)) := rfl
  have heq : (transformStages r (emitOptionsOf o) m).1 =
      (resolveItems r m).1.map
        (lowerItem o.swc_options.jsx_factory o.swc_options.jsx_fragment_factory) := by
    rw [hstage, hdev, fast_refresh_false]
  refine ⟨?_, heq⟩
  rw [heq]
  exact noRefreshRegs_map_lowerItem _ _ _ (noRefreshRegs_resolveItems m r hsrc)

/-- Witness for C8 on a concrete module holding an exported component:
in production mode the transformed items carry no registration. -/
theorem production_output_has_no_refresh_instrumentation_witness :
    noRefreshRegs (transformStages sampleResolver (emitOptionsOf prodOptions) sampleModule).1 =
      true :=
  (production_output_has_no_refresh_instrumentation prodOptions sampleResolver sampleModule
    rfl rfl).1

/-- C9: the Resolver is constructed with the plugin-resolution flag
hard-coded to false (lib.rs line 95), so the deferred-resolution path is
never taken: an unmatched bare specifier is passed through unchanged and
never marked pending, and its dependency record carries the unchanged
specifier. -/
theorem resolver_plugin_flag_false_bare_passthrough
    (filename : String) (im : ImportMap) (in_production : Bool) (s : String) (dyn : Bool)
    (hbare : classifySpecifier s = .bare)
    (hnomatch : im.resolve s filename = none) :
    (Resolver.new filename im in_production false).has_plugin_resolves = false ∧
    ((Resolver.new filename im in_production false).resolve s dyn).1 =
      { resolved := s, pending := false } ∧
    ((Resolver.new filename im in_production false).resolve s dyn).2.deps =
      [{ specifier := s, resolved := s, is_dynamic := dyn }] := by
  refine ⟨rfl, ?_, ?_⟩
  · simp [Resolver.resolve, Resolver.new, hbare, hnomatch]
  · simp [Resolver.resolve, Resolver.new, hbare, hnomatch]

/-- Witness for C9: the bare specifier react with an empty import map
passes through unchanged. -/
theorem resolver_plugin_flag_false_bare_passthrough_witness :
    ((Resolver.new "/app.tsx" { imports := [], scopes := [] } true false).resolve
        "react" false).1 =
      { resolved := "react", pending := false } :=
  (resolver_plugin_flag_false_bare_passthrough "/app.tsx" { imports := [], scopes := [] } true
    "react" false (by rfl) (by rfl)).2.1

end AlephSwc
